import Mathlib

/-
  Verification development for the murmur terminal multiplexer
  (repository steadymoka/murmur).

  The repository ships the npm installer (src/npm/install.js) and the npm
  launcher script; the Rust core (VT100 tracker, session registry, input
  router) is distributed as a prebuilt binary, so those components are
  modelled here from the specification (spec.md), as marked on each
  definition.  The installer and launcher are embedded from the JavaScript
  source directly.

  Layout: all definitions first, then the lemmas and claim theorems.
-/

namespace Murmur

/-! ## VT100 Tracker

Modelled from the spec: §4.2 VT100 Tracker.  The Rust implementation is not
part of the published sources; the definitions below follow the spec's
description of the tracker: an incremental byte-at-a-time parser with modes
`Ground -> Escape -> CSI|OSC -> Ground` (the parser mode stored in the state
is the "awaiting more bytes" buffer for sequences split across `feed`
calls), tracking cursor position, the current line, the alternate-screen
flag and the window title, and capturing the just-completed line as the
pinned prompt on CR/LF when not in alternate-screen mode. -/

/-- Parser mode of the tracker state machine (spec §4.2):
`Ground -> Escape -> CSI|OSC -> Ground`, with partial-sequence data kept in
the mode so that sequences split across `feed` calls resume correctly. -/
inductive ParseMode
  | ground
  | escape
  | csi (privFlag : Bool) (params : List Nat) (cur : Nat)
  | osc (buf : List Char)
  | oscEsc (buf : List Char)
  deriving DecidableEq, Repr

/-- Tracker state snapshot (spec §3): cursor position, current line under
the cursor, alternate-screen flag, window title; plus the last captured
pinned-prompt candidate and the parser mode. -/
structure TrackerState where
  cursor_row : Nat
  cursor_col : Nat
  current_line : List Char
  alternate_screen_active : Bool
  title : List Char
  pinned_prompt : Option (List Char)
  mode : ParseMode
  deriving DecidableEq, Repr

def initState : TrackerState :=
  { cursor_row := 0, cursor_col := 0, current_line := [],
    alternate_screen_active := false, title := [],
    pinned_prompt := none, mode := ParseMode.ground }

/-- Trailing-whitespace trim used by prompt capture (spec §4.2: the
just-completed line "trimmed of trailing whitespace"). -/
def trimRight (l : List Char) : List Char :=
  (l.reverse.dropWhile (fun c => c == ' ' || c == '\t')).reverse

/-- Prompt capture policy (spec §4.2): on CR/LF, when not in
alternate-screen mode and the trimmed line is nonempty, the line becomes
the pinned prompt; empty lines are rejected, and capture is suppressed
entirely while the alternate screen is active. -/
def capture (s : TrackerState) : TrackerState :=
  if s.alternate_screen_active then s
  else if trimRight s.current_line = [] then s
  else { s with pinned_prompt := some (trimRight s.current_line) }

/-- Printable byte: overwrite the cell under the cursor (padding with
spaces when the cursor is beyond the end of the line) and advance. -/
def putChar (s : TrackerState) (c : Char) : TrackerState :=
  { s with
    current_line :=
      if s.cursor_col < s.current_line.length then
        s.current_line.set s.cursor_col c
      else
        s.current_line ++ List.replicate (s.cursor_col - s.current_line.length) ' ' ++ [c],
    cursor_col := s.cursor_col + 1 }

/-- First CSI parameter with movement default (0 or absent means 1). -/
def arg1 (ps : List Nat) : Nat := max (ps.getD 0 0) 1

/-- Second CSI parameter with movement default. -/
def arg2 (ps : List Nat) : Nat := max (ps.getD 1 0) 1

/-- Alternate-screen DEC private mode numbers (spec §4.2: `1049`, and the
older `47`/`1047` forms). -/
def isAltParam (ps : List Nat) : Prop := 1049 ∈ ps ∨ 1047 ∈ ps ∨ 47 ∈ ps

instance (ps : List Nat) : Decidable (isAltParam ps) := by
  unfold isAltParam; infer_instance

/-- Cursor row after a CSI final byte: CUP (`H`/`f`) jumps, CUU (`A`) and
CUD (`B`) move relatively; anything else leaves the row alone. -/
def csiRow (s : TrackerState) (ps : List Nat) (fin : Nat) : Nat :=
  if fin = 72 ∨ fin = 102 then arg1 ps - 1
  else if fin = 65 then s.cursor_row - arg1 ps
  else if fin = 66 then s.cursor_row + arg1 ps
  else s.cursor_row

/-- Cursor column after a CSI final byte: CUP (`H`/`f`) jumps, CUF (`C`)
and CUB (`D`) move relatively; anything else leaves the column alone. -/
def csiCol (s : TrackerState) (ps : List Nat) (fin : Nat) : Nat :=
  if fin = 72 ∨ fin = 102 then arg2 ps - 1
  else if fin = 67 then s.cursor_col + arg1 ps
  else if fin = 68 then s.cursor_col - arg1 ps
  else s.cursor_col

/-- Alternate-screen flag after a CSI final byte: a DEC private `h`/`l`
with one of the alternate-screen mode numbers sets/clears it. -/
def csiAlt (s : TrackerState) (pf : Bool) (ps : List Nat) (fin : Nat) : Bool :=
  if fin = 104 ∧ pf ∧ isAltParam ps then true
  else if fin = 108 ∧ pf ∧ isAltParam ps then false
  else s.alternate_screen_active

/-- Current line content after an erase-line/erase-display parameter `m`:
`0` erases from the cursor to the end, `1` blanks from the start through
the cursor, `2` clears the whole line. -/
def eraseLine (s : TrackerState) (m : Nat) : List Char :=
  if m = 0 then s.current_line.take s.cursor_col
  else if m = 1 then
    List.replicate (min (s.cursor_col + 1) s.current_line.length) ' '
      ++ s.current_line.drop (s.cursor_col + 1)
  else if m = 2 then []
  else s.current_line

/-- Current line after a CSI final byte: switching screens or moving to a
different row starts from an empty row (the tracker keeps only the row
under the cursor), and erase sequences edit it in place (spec §4.2:
`current_line` reflects edits, not just appends). -/
def csiLine (s : TrackerState) (pf : Bool) (ps : List Nat) (fin : Nat) : List Char :=
  if fin = 104 ∨ fin = 108 then
    (if pf ∧ isAltParam ps then [] else s.current_line)
  else if fin = 72 ∨ fin = 102 then
    (if arg1 ps - 1 = s.cursor_row then s.current_line else [])
  else if fin = 65 then
    (if s.cursor_row - arg1 ps = s.cursor_row then s.current_line else [])
  else if fin = 66 then []
  else if fin = 75 ∨ fin = 74 then eraseLine s (ps.getD 0 0)
  else s.current_line

/-- Dispatch of a completed CSI sequence (final byte `fin`, parameters
`ps`, DEC-private flag `pf`): cursor movement (CUP/CUU/CUD/CUF/CUB),
alternate-screen enter/exit, erase-line/erase-display; anything else is
consumed and ignored (spec §4.2).  The title and the pinned prompt are
never touched by a CSI sequence. -/
def csiDispatch (s : TrackerState) (pf : Bool) (ps : List Nat) (fin : Nat) : TrackerState :=
  { s with
    cursor_row := csiRow s ps fin,
    cursor_col := csiCol s ps fin,
    current_line := csiLine s pf ps fin,
    alternate_screen_active := csiAlt s pf ps fin }

/-- Completed OSC sequence: `0;`/`2;` set the window title, any other OSC
is consumed and ignored (spec §4.2). -/
def oscFinish (s : TrackerState) (buf : List Char) : TrackerState :=
  if buf.take 2 = ['0', ';'] ∨ buf.take 2 = ['2', ';'] then
    { s with title := buf.drop 2, mode := ParseMode.ground }
  else { s with mode := ParseMode.ground }

/-- One byte in `Ground` mode: ESC opens an escape sequence; CR/LF trigger
prompt capture (and CR homes the column, LF advances the row onto a fresh
empty line); printable bytes edit the current line; other control bytes
are ignored. -/
def stepGround (s : TrackerState) (b : Nat) : TrackerState :=
  if b = 27 then { s with mode := ParseMode.escape }
  else if b = 13 then { capture s with cursor_col := 0 }
  else if b = 10 then { capture s with cursor_row := s.cursor_row + 1, current_line := [] }
  else if 32 ≤ b ∧ b ≤ 126 then putChar s (Char.ofNat b)
  else s

/-- One byte in `Escape` mode: `[` opens CSI, `]` opens OSC, a repeated ESC
stays pending, anything else is an unrecognized escape, consumed and
ignored without desynchronizing the parser (spec §4.2). -/
def stepEscape (s : TrackerState) (b : Nat) : TrackerState :=
  if b = 91 then { s with mode := ParseMode.csi false [] 0 }
  else if b = 93 then { s with mode := ParseMode.osc [] }
  else if b = 27 then { s with mode := ParseMode.escape }
  else { s with mode := ParseMode.ground }

/-- One byte in `CSI` mode: digits and `;` accumulate parameters, `?` sets
the DEC-private flag, a final byte (0x40–0x7E) dispatches, ESC restarts,
other bytes are ignored. -/
def stepCsi (s : TrackerState) (pf : Bool) (ps : List Nat) (cur : Nat) (b : Nat) : TrackerState :=
  if b = 27 then { s with mode := ParseMode.escape }
  else if 48 ≤ b ∧ b ≤ 57 then { s with mode := ParseMode.csi pf ps (cur * 10 + (b - 48)) }
  else if b = 59 then { s with mode := ParseMode.csi pf (ps ++ [cur]) 0 }
  else if b = 63 then { s with mode := ParseMode.csi true ps cur }
  else if 64 ≤ b ∧ b ≤ 126 then csiDispatch { s with mode := ParseMode.ground } pf (ps ++ [cur]) b
  else s

/-- One byte in `OSC` mode: BEL terminates, ESC may begin an ST terminator,
other bytes accumulate in the title buffer. -/
def stepOsc (s : TrackerState) (buf : List Char) (b : Nat) : TrackerState :=
  if b = 7 then oscFinish s buf
  else if b = 27 then { s with mode := ParseMode.oscEsc buf }
  else { s with mode := ParseMode.osc (buf ++ [Char.ofNat b]) }

/-- One byte after an ESC seen inside an OSC body: `\` completes the ST
terminator, anything else returns to accumulating the OSC body. -/
def stepOscEsc (s : TrackerState) (buf : List Char) (b : Nat) : TrackerState :=
  if b = 92 then oscFinish s buf
  else { s with mode := ParseMode.osc (buf ++ [Char.ofNat 27, Char.ofNat b]) }

/-- Feed a single byte to the tracker. -/
def step (s : TrackerState) (b : Nat) : TrackerState :=
  match s.mode with
  | ParseMode.ground => stepGround s b
  | ParseMode.escape => stepEscape s b
  | ParseMode.csi pf ps cur => stepCsi s pf ps cur b
  | ParseMode.osc buf => stepOsc s buf b
  | ParseMode.oscEsc buf => stepOscEsc s buf b

/-- `feed(bytes)` (spec §4.2): bytes are consumed one at a time in strict
arrival order; a partial escape sequence is buffered in the parser mode
and resumed on the next call. -/
def feed (s : TrackerState) (bytes : List Nat) : TrackerState :=
  bytes.foldl step s

/-- Alternate-screen enter sequence `ESC [ ? 1 0 4 9 h`. -/
def enterAlt : List Nat := [27, 91, 63, 49, 48, 52, 57, 104]

/-- Alternate-screen exit sequence `ESC [ ? 1 0 4 9 l`. -/
def exitAlt : List Nat := [27, 91, 63, 49, 48, 52, 57, 108]

/-- Concrete prompt-capture scenario: the echoed keystrokes `ls -la`
followed by CR LF, then output consisting of a final newline. -/
def lsScenario : List Nat := [108, 115, 32, 45, 108, 97, 13, 10, 10]

/-! ## Session Registry

Modelled from the spec: §3 Session data model and §4.3 Session Registry.
The Rust implementation is not under src/; the definitions follow the
spec's words: sessions are kept in insertion order, `create` assigns the
lowest unused (positive) id, `delete` removes the session and, when it was
focused, moves `focused_id` to the next lower id, else the next higher id,
else `none` when the registry becomes empty. -/

/-- Maximum of a list of naturals, `none` on the empty list. -/
def listMax : List Nat → Option Nat
  | [] => none
  | x :: xs =>
    match listMax xs with
    | none => some x
    | some m => some (max x m)

/-- Minimum of a list of naturals, `none` on the empty list. -/
def listMin : List Nat → Option Nat
  | [] => none
  | x :: xs =>
    match listMin xs with
    | none => some x
    | some m => some (min x m)

/-- Some positive id is always unused (one above the fold-maximum). -/
def lowestUnused_exists (ids : List Nat) : ∃ n, 0 < n ∧ ¬ n ∈ ids := by
  have hb : ∀ (l : List Nat) (n : Nat), n ∈ l → n ≤ l.foldr max 0 := by
    intro l
    induction l with
    | nil => intro n h; cases h
    | cons x xs ih =>
      intro n h
      rcases List.mem_cons.mp h with rfl | h2
      · exact le_max_left _ _
      · exact le_trans (ih n h2) (le_max_right _ _)
  refine ⟨ids.foldr max 0 + 1, Nat.succ_pos _, fun hmem => ?_⟩
  have := hb ids _ hmem
  omega

/-- Lowest unused positive id (spec §4.3: `create` assigns the lowest
unused id). -/
def lowestUnused (ids : List Nat) : Nat :=
  Nat.find (lowestUnused_exists ids)

/-- A session (spec §3): id, working directory, pinned prompt, liveness.
The PTY handle and tracker are owned by the session in the real system;
only the registry-relevant metadata is modelled here. -/
structure Session where
  id : Nat
  cwd : String
  pinned_prompt : Option String
  alive : Bool
  deriving DecidableEq, Repr

/-- The session registry (spec §3): sessions in insertion order plus the
optional focused id. -/
structure Registry where
  sessions : List Session
  focused_id : Option Nat
  deriving DecidableEq, Repr

def Registry.ids (r : Registry) : List Nat := r.sessions.map Session.id

def emptyRegistry : Registry := { sessions := [], focused_id := none }

/-- `create` (spec §4.3): append a new live session with the lowest unused
id and focus it. -/
def Registry.create (r : Registry) (cwd : String) : Registry × Nat :=
  let i := lowestUnused r.ids
  ({ sessions := r.sessions ++ [{ id := i, cwd := cwd, pinned_prompt := none, alive := true }],
     focused_id := some i }, i)

/-- Neighbor rule for refocusing after deleting the focused session
(spec §3): next lower id among the remaining ids, else next higher, else
`none`. -/
def nextFocus (remaining : List Nat) (d : Nat) : Option Nat :=
  match listMax (remaining.filter (fun i => i < d)) with
  | some m => some m
  | none => listMin (remaining.filter (fun i => d < i))

/-- Registry errors (spec §7). -/
inductive RegError
  | notFound
  deriving DecidableEq, Repr

/-- Focus re-resolution after deleting id `i` (spec §3): only when the
deleted session was the focused one does the focus move, by the neighbor
rule over the remaining ids. -/
def refocus (f : Option Nat) (i : Nat) (remaining : List Nat) : Option Nat :=
  match f with
  | some g => if g = i then nextFocus remaining i else some g
  | none => none

/-- `delete` (spec §4.3): fails with `NotFound` when the id is absent,
otherwise removes the session and re-resolves `focused_id` by the
neighbor rule when the focused session was the one deleted. -/
def Registry.delete (r : Registry) (i : Nat) : Except RegError Registry :=
  if i ∈ r.ids then
    Except.ok
      { sessions := r.sessions.filter (fun s => s.id ≠ i),
        focused_id :=
          refocus r.focused_id i ((r.sessions.filter (fun s => s.id ≠ i)).map Session.id) }
  else Except.error RegError.notFound

/-- A create/delete operation on the registry. -/
inductive RegOp
  | create (cwd : String)
  | delete (i : Nat)
  deriving DecidableEq, Repr

/-- Apply one operation; a failed delete (NotFound) leaves the registry
unchanged (spec §7: NotFound is surfaced to the command layer and has no
visible effect). -/
def applyOp (r : Registry) (op : RegOp) : Registry :=
  match op with
  | RegOp.create cwd => (r.create cwd).1
  | RegOp.delete i =>
    match r.delete i with
    | Except.ok r2 => r2
    | Except.error _ => r

def runOps (ops : List RegOp) (r : Registry) : Registry := ops.foldl applyOp r

/-- The registry invariant (spec §3): no duplicate ids, and `focused_id`
refers to a present session when set. -/
def RegInv (r : Registry) : Prop :=
  r.ids.Nodup ∧ ∀ f, r.focused_id = some f → f ∈ r.ids

/-! ## Input Router / Prefix-Key State Machine

Modelled from the spec: §4.4 and §6.  The Rust implementation is not under
src/; the two-state machine below follows the spec's transitions exactly:
the prefix byte `0x1C` arms `PrefixPending` without being forwarded, a
recognized command byte executes a command, an unrecognized byte after the
prefix is discarded, and every other byte in `Normal` is forwarded
verbatim to the focused session's PTY handle. -/

inductive RouterState
  | normal
  | prefixPending
  deriving DecidableEq, Repr

/-- The prefix byte `0x1C` (Ctrl+backslash), spec §6. -/
def prefixByte : Nat := 28

/-- Multiplexer commands reachable through the prefix key (spec §6):
`n`, `d`, `1`–`9`, `q`. -/
inductive Command
  | newSession
  | deleteSession
  | switchTo (n : Nat)
  | quit
  deriving DecidableEq, Repr

/-- Recognized command bytes after the prefix (spec §6). -/
def commandOfByte (b : Nat) : Option Command :=
  if b = 110 then some Command.newSession
  else if b = 100 then some Command.deleteSession
  else if 49 ≤ b ∧ b ≤ 57 then some (Command.switchTo (b - 48))
  else if b = 113 then some Command.quit
  else none

/-- One input byte: returns the next state, the bytes forwarded to the
focused session's PTY handle, and the commands executed (spec §4.4). -/
def routeByte : RouterState → Nat → RouterState × List Nat × List Command
  | RouterState.normal, b =>
    if b = prefixByte then (RouterState.prefixPending, [], [])
    else (RouterState.normal, [b], [])
  | RouterState.prefixPending, b =>
    match commandOfByte b with
    | some c => (RouterState.normal, [], [c])
    | none => (RouterState.normal, [], [])

/-- Route a byte sequence, concatenating forwarded bytes and commands in
order. -/
def routeBytes : RouterState → List Nat → RouterState × List Nat × List Command
  | st, [] => (st, [], [])
  | st, b :: rest =>
    let r1 := routeByte st b
    let r2 := routeBytes r1.1 rest
    (r2.1, r1.2.1 ++ r2.2.1, r1.2.2 ++ r2.2.2)

/-! ## Spawn-error containment and exit codes

Modelled from the spec: §6 (exit codes), §7 (error handling design: a
failed "new session" command leaves the registry unchanged and surfaces a
transient message; only `SpawnError` on the initial session is fatal).
The npm launcher is embedded from the published launcher script
(`execFileSync` wrapper): when the wrapped binary exits with a non-null
status the launcher exits with that same status, otherwise it rethrows. -/

/-- Outcome of `PTY Handle open` (spec §4.1): a handle, or `SpawnError`. -/
inductive SpawnOutcome
  | spawned (ptyId : Nat)
  | spawnError (msg : String)
  deriving DecidableEq, Repr

/-- Outcome of executing one multiplexer command: the process keeps
running with a possibly updated registry and an optional transient
message for the hint/pin bar, or the process exits. -/
inductive CmdOutcome
  | keepRunning (r : Registry) (transientMsg : Option String)
  | exitProcess (code : Nat)
  deriving DecidableEq, Repr

/-- Modelled from the spec: §7 — the "new session" command delegates to
PTY open; on `SpawnError` the session is not added, the registry is left
unchanged and a transient message is surfaced instead of a crash. -/
def handleNewSession (r : Registry) (cwd : String) (res : SpawnOutcome) : CmdOutcome :=
  match res with
  | SpawnOutcome.spawned _ => CmdOutcome.keepRunning (r.create cwd).1 none
  | SpawnOutcome.spawnError m =>
    CmdOutcome.keepRunning r (some ("spawn failed: " ++ m))

/-- Result of process startup. -/
inductive StartupResult
  | running (r : Registry)
  | fatalExit (code : Nat)
  deriving DecidableEq, Repr

/-- Modelled from the spec: §7/§6 — startup creates the bootstrap session
in an empty registry; `SpawnError` on this initial session is fatal to the
whole process, with a non-zero exit code. -/
def startup (cwd : String) (res : SpawnOutcome) : StartupResult :=
  match res with
  | SpawnOutcome.spawned _ => StartupResult.running (emptyRegistry.create cwd).1
  | SpawnOutcome.spawnError _ => StartupResult.fatalExit 1

/-- Modelled from the spec: §6 — the murmur process exits 0 on a
user-issued quit and non-zero on an unrecoverable spawn failure of the
initial session. -/
inductive RunEnding
  | userQuit
  | initialSpawnFailure
  deriving DecidableEq, Repr

def murmurExitCode : RunEnding → Int
  | RunEnding.userQuit => 0
  | RunEnding.initialSpawnFailure => 1

/-- Outcome of the launcher's `execFileSync` call on the wrapped binary:
it either returns normally (exit status 0) or throws an error carrying
the child's exit status, which is null when the child was killed by a
signal. -/
inductive ExecOutcome
  | completed
  | failed (status : Option Int)
  deriving DecidableEq, Repr

inductive LauncherAction
  | exitWith (code : Int)
  | rethrow
  deriving DecidableEq, Repr

/-- The npm launcher (src/unnamed/part_000): run the binary with
`execFileSync`; on normal return the script ends (exit 0), on an error
with non-null `status` it calls `process.exit(err.status)`, otherwise it
rethrows. -/
def runLauncher : ExecOutcome → LauncherAction
  | ExecOutcome.completed => LauncherAction.exitWith 0
  | ExecOutcome.failed (some s) => LauncherAction.exitWith s
  | ExecOutcome.failed none => LauncherAction.rethrow

/-- How a child exit status surfaces through `execFileSync`: status 0
returns normally, a non-zero status throws with that status attached. -/
def execOf (code : Int) : ExecOutcome :=
  if code = 0 then ExecOutcome.completed else ExecOutcome.failed (some code)

/-! ## npm installer (src/npm/install.js)

This part is embedded from the JavaScript source.  The filesystem is a
list of present paths, the network is a function from URL to response,
and the external archive extraction (`tar x` / `Expand-Archive`) is a
parameter giving the file set it deposits into the bin directory.  Side
effects are recorded in an effect trace. -/

/-- An HTTPS response as observed by `fetch`: status code, optional
`Location` header (`some ""` models a present-but-empty header, which is
falsy in JavaScript) and the concatenated body chunks. -/
structure HttpResponse where
  statusCode : Nat
  location : Option String
  body : List Nat
  deriving DecidableEq, Repr

/-- JavaScript truthiness of `res.headers.location`: absent or the empty
string are falsy. -/
def locTruthy : Option String → Bool
  | none => false
  | some l => !(l == "")

/-- The redirect guard of `fetch` (install.js line 44):
`res.statusCode >= 300 && res.statusCode < 400 && res.headers.location`. -/
def redirectCond (r : HttpResponse) : Bool :=
  decide (300 ≤ r.statusCode) && decide (r.statusCode < 400) && locTruthy r.location

/-- `fetch(url)` from install.js lines 40–57: follow a 3xx response with a
truthy `Location` header, reject any other non-200 status with an error
naming the status and the URL, and resolve with the full body on 200.
The `fuel` argument is a model artifact bounding the redirect chain (the
JavaScript recursion is unbounded and would follow a redirect cycle
forever). -/
def fetchBody (net : String → HttpResponse) : Nat → String → Except String (List Nat)
  | 0, _ => Except.error "redirect limit exhausted"
  | fuel + 1, url =>
    let res := net url
    if redirectCond res then fetchBody net fuel (res.location.getD "")
    else if res.statusCode ≠ 200 then
      Except.error ("HTTP " ++ toString res.statusCode ++ " for " ++ url)
    else Except.ok res.body

/-- The package directory (`__dirname` of install.js). -/
def installDir : String := "."

/-- `path.join` for the two-component paths the installer builds. -/
def pathJoin (a b : String) : String := a ++ "/" ++ b

/-- `path.join(__dirname, "bin")`. -/
def binDir : String := pathJoin installDir "bin"

/-- `os.platform() === "win32" ? "murmur.exe" : "murmur"`. -/
def binaryNameOf (platform : String) : String :=
  if platform = "win32" then "murmur.exe" else "murmur"

def binaryPathOf (platform : String) : String := pathJoin binDir (binaryNameOf platform)

/-- The `PLATFORM_MAP` lookup of install.js lines 14–20: target triple and
archive kind per `platform-arch` key. -/
def lookupPlatform (key : String) : Option (String × String) :=
  if key = "darwin-arm64" then some ("aarch64-apple-darwin", "tar.gz")
  else if key = "darwin-x64" then some ("x86_64-apple-darwin", "tar.gz")
  else if key = "linux-x64" then some ("x86_64-unknown-linux-gnu", "tar.gz")
  else if key = "linux-arm64" then some ("aarch64-unknown-linux-gnu", "tar.gz")
  else if key = "win32-x64" then some ("x86_64-pc-windows-msvc", "zip")
  else none

def platformKeys : List String :=
  ["darwin-arm64", "darwin-x64", "linux-x64", "linux-arm64", "win32-x64"]

def supportedList : String := String.intercalate ", " platformKeys

/-- `getPlatformInfo` (install.js lines 22–31): look up the
`platform-arch` key, or throw an error listing the supported keys. -/
def getPlatformInfo (platform : String) (arch : String) : Except String (String × String) :=
  match lookupPlatform (platform ++ "-" ++ arch) with
  | some info => Except.ok info
  | none =>
    Except.error
      ("Unsupported platform: " ++ (platform ++ "-" ++ arch)
        ++ "\nSupported: " ++ supportedList)

/-- The release download URL (install.js line 89). -/
def downloadUrl (version target archiveExt : String) : String :=
  "https://github.com/steadymoka/murmur/releases/download/v" ++ version
    ++ "/murmur-" ++ target ++ "." ++ archiveExt

/-- Redirect-chain bound used when running `main`; a model artifact. -/
def fetchFuel : Nat := 32

/-- Environment of one `main` run: platform/arch, the package version,
the filesystem (paths present), the network, and the file set the archive
extraction deposits into the bin directory. -/
structure InstallEnv where
  platform : String
  arch : String
  version : String
  files : List String
  net : String → HttpResponse
  archiveFiles : List String

/-- Observable side effects of the installer. -/
inductive FxEffect
  | consoleLog (msg : String)
  | consoleError (msg : String)
  | httpGet (url : String)
  | fsWrite (path : String)
  | fsMkdir (path : String)
  | runTar
  | runPowershell
  | fsUnlink (path : String)
  | fsChmod (path : String)
  deriving DecidableEq, Repr

/-- `main` (install.js lines 77–107): resolve the platform, return early
when the binary already exists, otherwise download, extract (write the
archive, run tar/powershell, unlink the archive) and, off Windows, chmod
the binary (`chmodSync` throws ENOENT when the archive did not contain
it).  Returns the final filesystem, the effect trace and the outcome. -/
def installMain (env : InstallEnv) : List String × List FxEffect × Except String Unit :=
  match getPlatformInfo env.platform env.arch with
  | Except.error e => (env.files, [], Except.error e)
  | Except.ok (target, archiveExt) =>
    if binaryPathOf env.platform ∈ env.files then
      (env.files,
       [FxEffect.consoleLog ("murmur binary already exists at " ++ binaryPathOf env.platform)],
       Except.ok ())
    else
      match fetchBody env.net fetchFuel (downloadUrl env.version target archiveExt) with
      | Except.error e =>
        (env.files,
         [FxEffect.consoleLog ("Downloading murmur v" ++ env.version ++ " for " ++ target ++ "..."),
          FxEffect.httpGet (downloadUrl env.version target archiveExt)],
         Except.error e)
      | Except.ok _ =>
        let archivePath := pathJoin binDir ("archive." ++ archiveExt)
        let files1 := ((env.files ++ [archivePath]) ++ env.archiveFiles).filter
          (fun p => p ≠ archivePath)
        let fx1 :=
          [FxEffect.consoleLog ("Downloading murmur v" ++ env.version ++ " for " ++ target ++ "..."),
           FxEffect.httpGet (downloadUrl env.version target archiveExt),
           FxEffect.fsMkdir binDir,
           FxEffect.fsWrite archivePath,
           (if archiveExt = "zip" then FxEffect.runPowershell else FxEffect.runTar),
           FxEffect.fsUnlink archivePath]
        if env.platform = "win32" then
          (files1,
           fx1 ++ [FxEffect.consoleLog ("Installed murmur to " ++ binaryPathOf env.platform)],
           Except.ok ())
        else if binaryPathOf env.platform ∈ files1 then
          (files1,
           fx1 ++ [FxEffect.fsChmod (binaryPathOf env.platform),
                   FxEffect.consoleLog ("Installed murmur to " ++ binaryPathOf env.platform)],
           Except.ok ())
        else
          (files1, fx1,
           Except.error ("ENOENT: no such file, chmod " ++ binaryPathOf env.platform))

/-- The script entry point `main().catch(...)` (install.js lines 109–112):
on rejection, print the failure message and exit with code 1; on success
the process ends normally (no forced exit code). -/
def installEntry (env : InstallEnv) : List String × List FxEffect × Option Nat :=
  match installMain env with
  | (files, fx, Except.ok _) => (files, fx, none)
  | (files, fx, Except.error e) =>
    (files, fx ++ [FxEffect.consoleError ("Failed to install murmur: " ++ e)], some 1)

/-- A concrete environment whose binary is already installed. -/
def demoEnv : InstallEnv :=
  { platform := "linux", arch := "x64", version := "1.0.0",
    files := ["./bin/murmur"],
    net := fun _ => { statusCode := 200, location := none, body := [] },
    archiveFiles := [] }

/-- A network whose root URL answers 301 with a present-but-empty
`Location` header. -/
def redirNet : String → HttpResponse := fun u =>
  if u = "http://a" then { statusCode := 301, location := some "", body := [1] }
  else { statusCode := 200, location := none, body := [9] }

/-- A network that always answers 200. -/
def okNet : String → HttpResponse := fun _ =>
  { statusCode := 200, location := none, body := [3] }

/-- A network with one well-formed redirect hop and a 404 behind it. -/
def movedNet : String → HttpResponse := fun u =>
  if u = "a" then { statusCode := 302, location := some "b", body := [] }
  else { statusCode := 404, location := none, body := [] }

/-- A concrete environment on an unsupported platform. -/
def bsdEnv : InstallEnv :=
  { platform := "freebsd", arch := "x64", version := "1.0.0",
    files := [],
    net := fun _ => { statusCode := 200, location := none, body := [] },
    archiveFiles := [] }

/-! ## Tracker lemmas -/

theorem capture_of_alt (s : TrackerState) (h : s.alternate_screen_active = true) :
    capture s = s := by
  simp [capture, h]

theorem csiDispatch_pinned (s : TrackerState) (pf : Bool) (ps : List Nat) (fin : Nat) :
    (csiDispatch s pf ps fin).pinned_prompt = s.pinned_prompt := by
  rfl

theorem oscFinish_pinned (s : TrackerState) (buf : List Char) :
    (oscFinish s buf).pinned_prompt = s.pinned_prompt := by
  unfold oscFinish
  split
  all_goals rfl

/-- While the alternate screen is active no byte can change the pinned
prompt: capture is the only writer of `pinned_prompt` and it is suppressed
when `alternate_screen_active` is true. -/
theorem step_pinned_of_alt (s : TrackerState) (b : Nat)
    (h : s.alternate_screen_active = true) :
    (step s b).pinned_prompt = s.pinned_prompt := by
  have hcap : capture s = s := capture_of_alt s h
  cases hm : s.mode with
  | ground =>
    simp only [step, hm, stepGround]
    repeat' split
    all_goals first | rfl | (simp [hcap, putChar])
  | escape =>
    simp only [step, hm, stepEscape]
    repeat' split
    all_goals rfl
  | csi pf ps cur =>
    simp only [step, hm, stepCsi]
    repeat' split
    all_goals rfl
  | osc buf =>
    simp only [step, hm, stepOsc]
    repeat' split
    all_goals first | rfl | (exact oscFinish_pinned _ buf)
  | oscEsc buf =>
    simp only [step, hm, stepOscEsc]
    split
    all_goals first | rfl | (exact oscFinish_pinned _ buf)

/-- A byte stream fed entirely inside alternate-screen mode leaves the
pinned prompt untouched. -/
theorem feed_pinned_of_alt (l : List Nat) (s : TrackerState)
    (h : ∀ n, (feed s (l.take n)).alternate_screen_active = true) :
    (feed s l).pinned_prompt = s.pinned_prompt := by
  induction l generalizing s with
  | nil => rfl
  | cons b t ih =>
    have h0 : s.alternate_screen_active = true := h 0
    have ht : (feed (step s b) t).pinned_prompt = (step s b).pinned_prompt := by
      apply ih
      intro n
      exact h (n + 1)
    calc (feed s (b :: t)).pinned_prompt
        = (feed (step s b) t).pinned_prompt := rfl
      _ = (step s b).pinned_prompt := ht
      _ = s.pinned_prompt := step_pinned_of_alt s b h0

/-- Feeding the alternate-screen enter sequence from `Ground` turns the
flag on and clears the current line, touching nothing else. -/
theorem feed_enterAlt (s : TrackerState) (h : s.mode = ParseMode.ground) :
    feed s enterAlt = { s with alternate_screen_active := true, current_line := [] } := by
  obtain ⟨r, c, line, alt, ti, pin, m⟩ := s
  dsimp at h
  subst h
  rfl

/-- Feeding the alternate-screen exit sequence from `Ground` turns the
flag off and clears the current line, touching nothing else. -/
theorem feed_exitAlt (s : TrackerState) (h : s.mode = ParseMode.ground) :
    feed s exitAlt = { s with alternate_screen_active := false, current_line := [] } := by
  obtain ⟨r, c, line, alt, ti, pin, m⟩ := s
  dsimp at h
  subst h
  rfl

/-! ## Claim theorems: VT100 Tracker -/

/-- C1: for every byte sequence and every split of it into two chunks,
feeding the VT100 Tracker the two chunks with two `feed` calls yields
exactly the same tracker state (`cursor_row`, `cursor_col`,
`current_line`, `alternate_screen_active`, `title`) as feeding the whole
sequence in a single `feed` call. -/
theorem tracker_chunk_independent (s : TrackerState) (a b : List Nat) :
    feed (feed s a) b = feed s (a ++ b) ∧
    (feed (feed s a) b).cursor_row = (feed s (a ++ b)).cursor_row ∧
    (feed (feed s a) b).cursor_col = (feed s (a ++ b)).cursor_col ∧
    (feed (feed s a) b).current_line = (feed s (a ++ b)).current_line ∧
    (feed (feed s a) b).alternate_screen_active = (feed s (a ++ b)).alternate_screen_active ∧
    (feed (feed s a) b).title = (feed s (a ++ b)).title := by
  have h : feed (feed s a) b = feed s (a ++ b) := (List.foldl_append step s a b).symm
  exact ⟨h, by rw [h], by rw [h], by rw [h], by rw [h], by rw [h]⟩

/-- C2: after an alternate-screen enter sequence, a middle stream during
which the alternate screen stays active, and the matching exit sequence,
the tracker has `alternate_screen_active = false`, and no CR/LF inside the
middle stream produced a prompt capture: the pinned prompt is exactly what
it was before entering. -/
theorem tracker_alt_screen_roundtrip (s : TrackerState) (middle : List Nat)
    (hg : s.mode = ParseMode.ground)
    (halt : ∀ n, (feed (feed s enterAlt) (middle.take n)).alternate_screen_active = true)
    (hgm : (feed (feed s enterAlt) middle).mode = ParseMode.ground) :
    (feed (feed (feed s enterAlt) middle) exitAlt).alternate_screen_active = false ∧
    (feed (feed (feed s enterAlt) middle) exitAlt).pinned_prompt = s.pinned_prompt := by
  have hA : feed s enterAlt = { s with alternate_screen_active := true, current_line := [] } :=
    feed_enterAlt s hg
  have hpinA : (feed s enterAlt).pinned_prompt = s.pinned_prompt := by rw [hA]
  have hpinB : (feed (feed s enterAlt) middle).pinned_prompt = s.pinned_prompt := by
    rw [feed_pinned_of_alt middle _ halt, hpinA]
  rw [feed_exitAlt (feed (feed s enterAlt) middle) hgm]
  exact ⟨rfl, hpinB⟩

/-- C2 witness: concrete run entering the alternate screen, printing
`hi` followed by CR LF inside it, and exiting: the flag is restored to
`false` and no capture happened. -/
theorem tracker_alt_screen_roundtrip_witness :
    initState.mode = ParseMode.ground ∧
    (feed (feed (feed initState enterAlt) [104, 105, 13, 10]) exitAlt).alternate_screen_active
      = false ∧
    (feed (feed (feed initState enterAlt) [104, 105, 13, 10]) exitAlt).pinned_prompt
      = initState.pinned_prompt := by
  have halt : ∀ n,
      (feed (feed initState enterAlt)
        (([104, 105, 13, 10] : List Nat).take n)).alternate_screen_active = true := by
    intro n
    match n with
    | 0 => decide
    | 1 => decide
    | 2 => decide
    | 3 => decide
    | (k + 4) =>
      rw [List.take_of_length_le (by simp)]
      decide
  have h := tracker_alt_screen_roundtrip initState [104, 105, 13, 10] rfl halt (by decide)
  exact ⟨rfl, h.1, h.2⟩

/-- C5: a CR or LF byte observed in `Ground` mode outside the alternate
screen pins the just-completed current line trimmed of trailing
whitespace, while an (after trimming) empty line is rejected and leaves
the pinned prompt unchanged; concretely, typing `ls -la` + CR LF followed
by output ending in a newline pins `ls -la`. -/
theorem tracker_prompt_capture (s : TrackerState) (b : Nat)
    (hg : s.mode = ParseMode.ground) (ha : s.alternate_screen_active = false)
    (hb : b = 13 ∨ b = 10) :
    (trimRight s.current_line ≠ [] →
      (step s b).pinned_prompt = some (trimRight s.current_line)) ∧
    (trimRight s.current_line = [] →
      (step s b).pinned_prompt = s.pinned_prompt) ∧
    (feed initState lsScenario).pinned_prompt = some ['l', 's', ' ', '-', 'l', 'a'] := by
  have hstep : (step s b).pinned_prompt = (capture s).pinned_prompt := by
    rcases hb with rfl | rfl <;> simp [step, hg, stepGround]
  refine ⟨?_, ?_, by decide⟩
  · intro hne
    rw [hstep]
    simp [capture, ha, hne]
  · intro he
    rw [hstep]
    simp [capture, ha, he]

/-- C5 witness: the capture rule applied at the state whose current line
is `ls -la` (cursor after the last character), on the CR byte. -/
theorem tracker_prompt_capture_witness :
    trimRight ['l', 's', ' ', '-', 'l', 'a'] ≠ [] ∧
    (step ⟨0, 6, ['l', 's', ' ', '-', 'l', 'a'], false, [], none, ParseMode.ground⟩ 13).pinned_prompt
      = some (trimRight ['l', 's', ' ', '-', 'l', 'a']) :=
  ⟨by decide,
   (tracker_prompt_capture ⟨0, 6, ['l', 's', ' ', '-', 'l', 'a'], false, [], none, ParseMode.ground⟩
      13 rfl rfl (Or.inl rfl)).1 (by decide)⟩

/-! ## Registry lemmas -/

theorem listMax_mem : ∀ {l : List Nat} {m : Nat}, listMax l = some m → m ∈ l := by
  intro l
  induction l with
  | nil => intro m h; simp [listMax] at h
  | cons x xs ih =>
    intro m h
    unfold listMax at h
    cases hx : listMax xs with
    | none => rw [hx] at h; simp at h; simp [h]
    | some k =>
      rw [hx] at h
      simp at h
      rcases max_choice x k with hm | hm
      · rw [hm] at h; simp [h]
      · rw [hm] at h
        subst h
        exact List.mem_cons_of_mem x (ih hx)

theorem listMin_mem : ∀ {l : List Nat} {m : Nat}, listMin l = some m → m ∈ l := by
  intro l
  induction l with
  | nil => intro m h; simp [listMin] at h
  | cons x xs ih =>
    intro m h
    unfold listMin at h
    cases hx : listMin xs with
    | none => rw [hx] at h; simp at h; simp [h]
    | some k =>
      rw [hx] at h
      simp at h
      rcases min_choice x k with hm | hm
      · rw [hm] at h; simp [h]
      · rw [hm] at h
        subst h
        exact List.mem_cons_of_mem x (ih hx)

theorem lowestUnused_pos (ids : List Nat) : 0 < lowestUnused ids :=
  (Nat.find_spec (lowestUnused_exists ids)).1

theorem lowestUnused_not_mem (ids : List Nat) : ¬ lowestUnused ids ∈ ids :=
  (Nat.find_spec (lowestUnused_exists ids)).2

theorem regInv_empty : RegInv emptyRegistry := by
  constructor
  · simp [Registry.ids, emptyRegistry]
  · intro f h
    simp [emptyRegistry] at h

theorem ids_create (r : Registry) (cwd : String) :
    ((r.create cwd).1).ids = r.ids ++ [lowestUnused r.ids] := by
  simp [Registry.create, Registry.ids]

theorem nextFocus_mem {remaining : List Nat} {d m : Nat}
    (h : nextFocus remaining d = some m) : m ∈ remaining := by
  unfold nextFocus at h
  cases hx : listMax (remaining.filter (fun i => i < d)) with
  | none =>
    rw [hx] at h
    exact List.mem_of_mem_filter (listMin_mem h)
  | some k =>
    rw [hx] at h
    cases h
    exact List.mem_of_mem_filter (listMax_mem hx)

theorem map_filter_id (ss : List Session) (i : Nat) :
    (ss.filter (fun s => s.id ≠ i)).map Session.id
      = (ss.map Session.id).filter (fun x => x ≠ i) := by
  induction ss with
  | nil => rfl
  | cons s t ih =>
    by_cases hs : s.id = i
    · simp only [List.filter_cons, List.map_cons]
      rw [if_neg (by simp [hs]), if_neg (by simp [hs])]
      exact ih
    · simp only [List.filter_cons, List.map_cons]
      rw [if_pos (by simp [hs]), if_pos (by simp [hs])]
      rw [List.map_cons, ih]

theorem ids_delete {r : Registry} {i : Nat} {r2 : Registry}
    (h : r.delete i = Except.ok r2) :
    r2.ids = r.ids.filter (fun x => x ≠ i) := by
  unfold Registry.delete at h
  split at h
  · cases h
    simp only [Registry.ids]
    exact map_filter_id r.sessions i
  · cases h

theorem regInv_create (r : Registry) (cwd : String) (h : RegInv r) :
    RegInv (r.create cwd).1 := by
  constructor
  · rw [ids_create]
    rw [List.nodup_append]
    exact ⟨h.1, List.nodup_singleton _,
      by
        intro a ha hb
        simp at hb
        subst hb
        exact lowestUnused_not_mem r.ids ha⟩
  · intro f hf
    simp [Registry.create] at hf
    rw [ids_create]
    subst hf
    simp

theorem refocus_cases {f : Option Nat} {i m : Nat} {rem : List Nat}
    (h : refocus f i rem = some m) : m ∈ rem ∨ (f = some m ∧ m ≠ i) := by
  cases f with
  | none => simp [refocus] at h
  | some g =>
    by_cases hgi : g = i
    · left
      simp only [refocus, if_pos hgi] at h
      exact nextFocus_mem h
    · right
      simp only [refocus, if_neg hgi, Option.some.injEq] at h
      subst h
      exact ⟨rfl, hgi⟩

theorem regInv_delete {r : Registry} {i : Nat} {r2 : Registry} (h : RegInv r)
    (hd : r.delete i = Except.ok r2) : RegInv r2 := by
  have hids := ids_delete hd
  constructor
  · rw [hids]
    exact List.Nodup.filter _ h.1
  · intro f hf
    unfold Registry.delete at hd
    split at hd
    · cases hd
      simp only [Registry.ids, map_filter_id] at hf ⊢
      rcases refocus_cases hf with hm | ⟨hfoc, hne⟩
      · exact hm
      · rw [List.mem_filter]
        refine ⟨h.2 f hfoc, by simp [hne]⟩
    · cases hd

theorem regInv_applyOp (r : Registry) (op : RegOp) (h : RegInv r) :
    RegInv (applyOp r op) := by
  cases op with
  | create cwd => exact regInv_create r cwd h
  | delete i =>
    show RegInv (match r.delete i with | Except.ok r2 => r2 | Except.error _ => r)
    cases hd : r.delete i with
    | ok r2 => exact regInv_delete h hd
    | error e => exact h

/-! ## Claim theorems: Session Registry -/

/-- C3: for every finite sequence of create/delete operations starting
from the empty registry, the sessions list contains no duplicate id and
`focused_id` is either `none` or the id of a present session; and
deleting the focused session re-resolves the focus by the neighbor rule:
next lower id among the remaining sessions, else next higher, else
`none`. -/
theorem registry_invariant (ops : List RegOp) :
    RegInv (runOps ops emptyRegistry) ∧
    ∀ (r : Registry) (i : Nat), r.focused_id = some i → i ∈ r.ids →
      ∃ r2, r.delete i = Except.ok r2 ∧
        r2.ids = r.ids.filter (fun x => x ≠ i) ∧
        r2.focused_id = nextFocus r2.ids i := by
  constructor
  · have hall : ∀ (l : List RegOp) (r : Registry), RegInv r → RegInv (runOps l r) := by
      intro l
      induction l with
      | nil => intro r h; exact h
      | cons op t ih =>
        intro r h
        exact ih (applyOp r op) (regInv_applyOp r op h)
    exact hall ops emptyRegistry regInv_empty
  · intro r i hfoc hmem
    have hok : r.delete i =
        Except.ok
          { sessions := r.sessions.filter (fun s => s.id ≠ i),
            focused_id :=
              refocus r.focused_id i
                ((r.sessions.filter (fun s => s.id ≠ i)).map Session.id) } := by
      unfold Registry.delete
      rw [if_pos hmem]
    refine ⟨_, hok, ids_delete hok, ?_⟩
    show refocus r.focused_id i ((r.sessions.filter (fun s => s.id ≠ i)).map Session.id)
        = nextFocus ((r.sessions.filter (fun s => s.id ≠ i)).map Session.id) i
    rw [hfoc]
    simp [refocus]

/-- C3 witness: the neighbor-rule part exercised on a registry holding
ids 1 and 2 with 2 focused: deleting 2 refocuses 1. -/
theorem registry_invariant_witness :
    ∃ r2,
      (Registry.delete
        { sessions :=
            [{ id := 1, cwd := "a", pinned_prompt := none, alive := true },
             { id := 2, cwd := "b", pinned_prompt := none, alive := true }],
          focused_id := some 2 } 2) = Except.ok r2 ∧
      r2.ids = [1] ∧ r2.focused_id = some 1 := by
  obtain ⟨r2, h1, h2, h3⟩ :=
    (registry_invariant []).2
      { sessions :=
          [{ id := 1, cwd := "a", pinned_prompt := none, alive := true },
           { id := 2, cwd := "b", pinned_prompt := none, alive := true }],
        focused_id := some 2 } 2 rfl (by decide)
  refine ⟨r2, h1, ?_, ?_⟩
  · rw [h2]; decide
  · rw [h3, h2]; decide

/-! ## Claim theorems: Input Router -/

/-- C4: from `Normal`, feeding `[prefix, 'x']` (`'x'` = 0x78 is not a
recognized command byte) returns to `Normal` having forwarded zero bytes
and executed no command; and any byte sequence containing no prefix byte
is forwarded verbatim and in order with no command executed. -/
theorem router_discards_unrecognized (bs : List Nat) (h : ¬ prefixByte ∈ bs) :
    routeBytes RouterState.normal [prefixByte, 120] = (RouterState.normal, [], []) ∧
    routeBytes RouterState.normal bs = (RouterState.normal, bs, []) := by
  constructor
  · decide
  · induction bs with
    | nil => rfl
    | cons b t ih =>
      have hb : ¬ b = prefixByte := fun hb => h (by simp [hb])
      have ht : ¬ prefixByte ∈ t := fun ht => h (List.mem_cons_of_mem _ ht)
      show (let r1 := routeByte RouterState.normal b
            let r2 := routeBytes r1.1 t
            (r2.1, r1.2.1 ++ r2.2.1, r1.2.2 ++ r2.2.2)) = (RouterState.normal, b :: t, [])
      simp [routeByte, if_neg hb, ih ht]

/-- C4 witness: the no-prefix stream `['a','b','c']` is forwarded exactly
as `a, b, c` in order. -/
theorem router_discards_unrecognized_witness :
    routeBytes RouterState.normal [97, 98, 99] = (RouterState.normal, [97, 98, 99], []) :=
  (router_discards_unrecognized [97, 98, 99] (by decide)).2

/-! ## Claim theorems: spawn errors and exit codes -/

/-- C6: a "new session" command failing with `SpawnError` leaves the
registry exactly as it was (no session added, focus unchanged) and keeps
the process running; only a `SpawnError` on the initial session is fatal
to the whole process. -/
theorem spawn_error_contained (r : Registry) (cwd m : String) :
    handleNewSession r cwd (SpawnOutcome.spawnError m)
      = CmdOutcome.keepRunning r (some ("spawn failed: " ++ m)) ∧
    (∀ p, handleNewSession r cwd (SpawnOutcome.spawnError m) ≠ CmdOutcome.exitProcess p) ∧
    startup cwd (SpawnOutcome.spawnError m) = StartupResult.fatalExit 1 ∧
    ∀ pty, startup cwd (SpawnOutcome.spawned pty)
      = StartupResult.running (emptyRegistry.create cwd).1 := by
  refine ⟨rfl, ?_, rfl, fun pty => rfl⟩
  intro p hp
  simp [handleNewSession] at hp

/-- C7: the process exits 0 on a user-issued quit and non-zero when the
initial session's spawn fails unrecoverably, and the npm launcher
preserves the wrapped binary's own exit status whenever that status is
non-null. -/
theorem exit_code_policy :
    murmurExitCode RunEnding.userQuit = 0 ∧
    murmurExitCode RunEnding.initialSpawnFailure ≠ 0 ∧
    (∀ s : Int, runLauncher (ExecOutcome.failed (some s)) = LauncherAction.exitWith s) ∧
    (∀ e : RunEnding,
      runLauncher (execOf (murmurExitCode e)) = LauncherAction.exitWith (murmurExitCode e)) := by
  refine ⟨rfl, by decide, fun s => rfl, fun e => ?_⟩
  cases e
  · decide
  · decide

/-! ## Installer lemmas -/

/-- When a supported platform resolves and the binary is already present,
`main` returns early: one log line, no other effect, filesystem
untouched, success (install.js lines 84–87). -/
theorem installMain_noop (env : InstallEnv) (info : String × String)
    (hplat : getPlatformInfo env.platform env.arch = Except.ok info)
    (hexists : binaryPathOf env.platform ∈ env.files) :
    installMain env =
      (env.files,
       [FxEffect.consoleLog ("murmur binary already exists at " ++ binaryPathOf env.platform)],
       Except.ok ()) := by
  obtain ⟨target, archiveExt⟩ := info
  simp only [installMain, hplat]
  rw [if_pos hexists]

/-- Off Windows, a successful `main` run implies the binary file is
present afterwards: the `chmodSync` guard only succeeds when it is. -/
theorem installMain_ok_mem (env : InstallEnv) (hw : env.platform ≠ "win32")
    (hok : (installMain env).2.2 = Except.ok ()) :
    binaryPathOf env.platform ∈ (installMain env).1 := by
  cases hgp : getPlatformInfo env.platform env.arch with
  | error e =>
    simp only [installMain, hgp] at hok
    simp at hok
  | ok info =>
    obtain ⟨target, archiveExt⟩ := info
    simp only [installMain, hgp] at hok ⊢
    by_cases hex : binaryPathOf env.platform ∈ env.files
    · rw [if_pos hex] at hok ⊢
      exact hex
    · rw [if_neg hex] at hok ⊢
      cases hf : fetchBody env.net fetchFuel (downloadUrl env.version target archiveExt) with
      | error e2 =>
        rw [hf] at hok
        simp at hok
      | ok body =>
        rw [hf] at hok
        dsimp only at hok ⊢
        rw [if_neg hw] at hok ⊢
        by_cases hb : binaryPathOf env.platform ∈
            ((env.files ++ [pathJoin binDir ("archive." ++ archiveExt)]) ++ env.archiveFiles).filter
              (fun p => p ≠ pathJoin binDir ("archive." ++ archiveExt))
        · rw [if_pos hb] at hok ⊢
          exact hb
        · rw [if_neg hb] at hok
          simp at hok

/-! ## Claim theorems: npm installer -/

/-- C8: when the target binary already exists, `main` performs no network
request and writes no files — the filesystem is unchanged and the only
effect is one log line — and returns successfully; consequently (off
Windows, where success guarantees the binary is present) running the
installer twice is equivalent to running it once: the second run is
exactly such a no-op. -/
theorem installer_idempotent (env : InstallEnv) (info : String × String)
    (hplat : getPlatformInfo env.platform env.arch = Except.ok info)
    (hexists : binaryPathOf env.platform ∈ env.files) :
    installMain env =
      (env.files,
       [FxEffect.consoleLog ("murmur binary already exists at " ++ binaryPathOf env.platform)],
       Except.ok ()) ∧
    ∀ (env2 : InstallEnv) (info2 : String × String),
      getPlatformInfo env2.platform env2.arch = Except.ok info2 →
      env2.platform ≠ "win32" →
      (installMain env2).2.2 = Except.ok () →
      installMain { env2 with files := (installMain env2).1 } =
        ((installMain env2).1,
         [FxEffect.consoleLog ("murmur binary already exists at " ++ binaryPathOf env2.platform)],
         Except.ok ()) := by
  refine ⟨installMain_noop env info hplat hexists, ?_⟩
  intro env2 info2 hplat2 hw hok
  exact installMain_noop { env2 with files := (installMain env2).1 } info2 hplat2
    (installMain_ok_mem env2 hw hok)

/-- C8 witness: a linux-x64 environment with the binary already present:
`main` is a pure no-op apart from the log line. -/
theorem installer_idempotent_witness :
    installMain demoEnv =
      (demoEnv.files,
       [FxEffect.consoleLog ("murmur binary already exists at " ++ binaryPathOf demoEnv.platform)],
       Except.ok ()) :=
  (installer_idempotent demoEnv ("x86_64-unknown-linux-gnu", "tar.gz") rfl (by decide)).1

/-- C9 counterexample: a 301 response carrying a `Location` header whose
value is the empty string is NOT re-fetched — JavaScript treats the empty
header as falsy, so `fetch` rejects with `HTTP 301 for <url>` instead of
recursing on the location. -/
theorem fetch_redirect_counterexample :
    (redirNet "http://a").statusCode = 301 ∧
    (redirNet "http://a").location = some "" ∧
    fetchBody redirNet 5 "http://a" = Except.error "HTTP 301 for http://a" ∧
    fetchBody redirNet 4 "" = Except.ok [9] ∧
    Except.error "HTTP 301 for http://a" ≠ (Except.ok [9] : Except String (List Nat)) :=
  ⟨rfl, rfl, rfl, rfl, by simp⟩

/-- C9 (amended): `fetch` resolves with the full body when the status is
200; a status in 300–399 with a non-empty `Location` header re-fetches
that location; every other response — including a 3xx whose `Location`
header is absent or empty — rejects with an error naming the status and
the URL. -/
theorem fetch_status_behavior (net : String → HttpResponse) (fuel : Nat) (url : String) :
    ((net url).statusCode = 200 → fetchBody net (fuel + 1) url = Except.ok (net url).body) ∧
    (∀ loc, 300 ≤ (net url).statusCode → (net url).statusCode < 400 →
      (net url).location = some loc → loc ≠ "" →
      fetchBody net (fuel + 1) url = fetchBody net fuel loc) ∧
    ((net url).statusCode ≠ 200 → redirectCond (net url) = false →
      fetchBody net (fuel + 1) url =
        Except.error ("HTTP " ++ toString (net url).statusCode ++ " for " ++ url)) := by
  refine ⟨?_, ?_, ?_⟩
  · intro h200
    have hrc : redirectCond (net url) = false := by
      simp [redirectCond, h200]
    simp [fetchBody, hrc, h200]
  · intro loc h3 h4 hloc hne
    have hrc : redirectCond (net url) = true := by
      simp [redirectCond, locTruthy, hloc, hne, h3, h4]
    simp [fetchBody, hrc, hloc]
  · intro hne hrc
    simp [fetchBody, hrc, hne]

/-- C9 witness: all three behaviors at concrete networks — a 200 resolves
with the body, a 302 with `Location: b` steps to `b`, and the 404 there
rejects naming status and URL. -/
theorem fetch_status_behavior_witness :
    fetchBody okNet 1 "u" = Except.ok [3] ∧
    fetchBody movedNet 2 "a" = fetchBody movedNet 1 "b" ∧
    fetchBody movedNet 1 "b" = Except.error ("HTTP " ++ toString (404 : Nat) ++ " for " ++ "b") :=
  ⟨(fetch_status_behavior okNet 0 "u").1 rfl,
   (fetch_status_behavior movedNet 1 "a").2.1 "b" (by decide) (by decide) rfl (by decide),
   (fetch_status_behavior movedNet 0 "b").2.2 (by decide) rfl⟩

/-- C10: for a platform/arch pair outside the five supported keys,
`getPlatformInfo` fails with an error listing the supported platforms,
and the installer entry point performs no effect other than printing the
failure message (in particular no download) and exits with code 1. -/
theorem unsupported_platform_rejected (p a : String) (env : InstallEnv)
    (hp : env.platform = p) (ha : env.arch = a)
    (hkey : ¬ (p ++ "-" ++ a) ∈ platformKeys) :
    getPlatformInfo p a =
      Except.error
        ("Unsupported platform: " ++ (p ++ "-" ++ a) ++ "\nSupported: " ++ supportedList) ∧
    installEntry env =
      (env.files,
       [FxEffect.consoleError ("Failed to install murmur: " ++
          ("Unsupported platform: " ++ (p ++ "-" ++ a) ++ "\nSupported: " ++ supportedList))],
       some 1) := by
  simp only [platformKeys, List.mem_cons, List.mem_singleton, not_or] at hkey
  obtain ⟨h1, h2, h3, h4, h5⟩ := hkey
  have hlook : lookupPlatform (p ++ "-" ++ a) = none := by
    simp [lookupPlatform, h1, h2, h3, h4, h5]
  have hgp : getPlatformInfo p a =
      Except.error
        ("Unsupported platform: " ++ (p ++ "-" ++ a) ++ "\nSupported: " ++ supportedList) := by
    simp [getPlatformInfo, hlook]
  refine ⟨hgp, ?_⟩
  have hmain : installMain env =
      (env.files, [],
       Except.error
         ("Unsupported platform: " ++ (p ++ "-" ++ a) ++ "\nSupported: " ++ supportedList)) := by
    simp only [installMain, hp, ha, hgp]
  simp [installEntry, hmain]

/-- C10 witness: `freebsd-x64` is rejected with the supported-platform
list and exit code 1, with no download attempted. -/
theorem unsupported_platform_rejected_witness :
    installEntry bsdEnv =
      (bsdEnv.files,
       [FxEffect.consoleError ("Failed to install murmur: " ++
          ("Unsupported platform: " ++ ("freebsd" ++ "-" ++ "x64")
            ++ "\nSupported: " ++ supportedList))],
       some 1) :=
  (unsupported_platform_rejected "freebsd" "x64" bsdEnv rfl rfl (by decide)).2

end Murmur
